import Mathlib

/-!
# Shallow embedding of the endpoint health monitor (`src/utils/monitor.py`)

The code embedded here is the `APIMonitor` health-check engine: the dataclasses
`EndpointConfig` and `HealthCheckResult`, the constructor `APIMonitor.__init__`,
and the retry loop `APIMonitor.check_endpoint_sync`.

Modelling conventions:
* Python `float` durations become `ℚ`; Python `int` status codes become `ℤ`.
* The network is an oracle `Env`: for each loop iteration index it supplies the
  transport outcome that `requests.get`/`requests.post` would produce — either a
  received response (status code plus the wall-clock elapsed milliseconds that
  `(time.time() - start_time) * 1000` would read at line 60), or one of the three
  exception classes the code catches.  The elapsed milliseconds read on the
  terminal error path (line 107) and the `datetime.now()` timestamp are also
  supplied by the oracle.
* A Python exception that escapes the function is modelled as `Except.error`
  carrying the exception's description; a normal return is `Except.ok`.
* `str.upper` is modelled by `pyUpper`, which maps `Char.toUpper` over the
  characters (the methods compared against, `"GET"`/`"POST"`, are ASCII, where
  the two functions agree).
* Python f-string float formatting is abstracted by `toString` on `ℚ`; the
  claims under check depend on which message is produced, not on digit layout.
-/

/-- `EndpointConfig` dataclass (`monitor.py` lines 11–22), with its defaults. -/
structure EndpointConfig where
  name : String
  url : String
  method : String := "GET"
  headers : Option (List (String × String)) := none
  payload : Option (List (String × String)) := none
  expected_status : ℤ := 200
  max_response_time : ℚ := 5
  timeout : ℚ := 10
  retry_count : Nat := 3
  retry_delay : ℚ := 1
deriving Repr, DecidableEq

/-- `HealthCheckResult` dataclass (`monitor.py` lines 24–32).  The timestamp is
an abstract clock reading supplied by the environment. -/
structure HealthCheckResult where
  endpoint_name : String
  url : String
  status : String
  status_code : Option ℤ
  response_time : ℚ
  timestamp : Nat
  error_message : Option String := none
deriving Repr, DecidableEq

/-- Outcome of one HTTP request at the transport level: a received response
(with the elapsed-milliseconds clock reading taken right after it), or one of
the three exception classes distinguished by the handlers at lines 86–105. -/
inductive AttemptOutcome where
  | response (status_code : ℤ) (elapsed_ms : ℚ)
  | timeout
  | connError
  | otherExc (msg : String)
deriving Repr, DecidableEq

/-- The transport oracle and the two remaining ambient readings the code takes:
the elapsed milliseconds computed on the terminal error path (line 107) and the
`datetime.now()` timestamp. -/
structure Env where
  outcome : Nat → AttemptOutcome
  final_elapsed_ms : ℚ
  now : Nat

/-- `True` when the outcome is one of the three caught exception classes
(timeout, connection error, any other exception) rather than a response. -/
def AttemptOutcome.isFailure : AttemptOutcome → Bool
  | .response _ _ => false
  | _ => true

/-- Python's `str.upper`, modelled character by character with `Char.toUpper`
(the method names compared against, `"GET"`/`"POST"`, are ASCII, where the two
agree). -/
def pyUpper (s : String) : String :=
  ⟨s.data.map Char.toUpper⟩

/-- Whether the dispatch at lines 46–58 issues an HTTP request at all: only
when the uppercased method is `GET` or `POST` does a request go out. -/
def issuesRequest (ep : EndpointConfig) : Bool :=
  pyUpper ep.method = "GET" || pyUpper ep.method = "POST"

/-- The exception text Python raises at line 62 when neither `if` branch bound
the local variable `response` (an `UnboundLocalError`). -/
def unboundResponseMsg : String :=
  "cannot access local variable 'response' where it is not associated with a value"

/-- What one iteration of the attempt loop observes: the oracle's transport
outcome when a request is issued, and otherwise the `UnboundLocalError` raised
by reading the never-assigned `response` variable, which the generic
`except Exception` handler at line 100 catches. -/
def attemptOutcome (ep : EndpointConfig) (env : Env) (i : Nat) : AttemptOutcome :=
  if issuesRequest ep then env.outcome i else .otherExc unboundResponseMsg

/-- The error message each handler records on the final attempt
(lines 91, 98, 105). -/
def failMsg (ep : EndpointConfig) : AttemptOutcome → String
  | .timeout => "Request timeout after " ++ toString ep.timeout ++ "s"
  | .connError => "Connection error"
  | .otherExc m => m
  | .response _ _ => ""

/-- The classification of a received response (lines 62–71): status string and
optional error message. -/
def classify (ep : EndpointConfig) (code : ℤ) (elapsed_ms : ℚ) : String × Option String :=
  if code = ep.expected_status then
    if elapsed_ms ≤ ep.max_response_time * 1000 then
      ("healthy", none)
    else
      ("slow", some ("Response time " ++ toString elapsed_ms ++ "ms exceeds threshold "
         ++ toString (ep.max_response_time * 1000) ++ "ms"))
  else
    ("unhealthy", some ("Expected status " ++ toString ep.expected_status ++ ", got "
       ++ toString code))

/-- How the attempt loop ended: a response was received (the function then
classifies and returns inside the loop), or all iterations raised, leaving
`error_message` holding the last handler's message — or unbound (`none`) when
the loop body never ran at all. -/
inductive LoopExit where
  | responded (status_code : ℤ) (elapsed_ms : ℚ)
  | exhausted (last_err : Option String)
deriving Repr, DecidableEq

/-- The `for attempt in range(retry_count)` loop of lines 44–105, with `i` the
current value of `attempt` and `fuel` the iterations remaining.  Returns how
the loop ended, the number of HTTP requests issued, and the number of
`time.sleep(retry_delay)` calls made.  A handler sleeps and continues exactly
when `attempt < retry_count - 1`, i.e. when further iterations remain. -/
def runAttempts (ep : EndpointConfig) (env : Env) : Nat → Nat → LoopExit × Nat × Nat
  | _, 0 => (.exhausted none, 0, 0)
  | i, fuel + 1 =>
    let req : Nat := if issuesRequest ep then 1 else 0
    match attemptOutcome ep env i with
    | .response c t => (.responded c t, req, 0)
    | fail =>
      if fuel = 0 then
        (.exhausted (some (failMsg ep fail)), req, 0)
      else
        let rest := runAttempts ep env (i + 1) fuel
        (rest.1, req + rest.2.1, rest.2.2 + 1)

/-- `APIMonitor`'s per-instance state (`__init__`, lines 35–39): the configured
endpoints, the results history, and the history cap. -/
structure APIMonitor where
  endpoints : List EndpointConfig
  results_history : List HealthCheckResult
  max_history : Nat
deriving Repr, DecidableEq

/-- `APIMonitor.__init__` (lines 35–39): empty history, cap 1000. -/
def APIMonitor.init (endpoints : List EndpointConfig) : APIMonitor :=
  { endpoints := endpoints, results_history := [], max_history := 1000 }

/-- Modelled from the spec: the body of `APIMonitor._add_to_history` is not in
the source (the file `src/utils/monitor.py` is cut off at line 161; only the
call sites at lines 83 and 118 survive).  The spec describes the buffer as "an
ordered sequence of `HealthCheckResult`, capped at a fixed maximum count
(oldest evicted first — FIFO eviction)": append the new result, then drop the
oldest entries until the cap is respected. -/
def APIMonitor.add_to_history (m : APIMonitor) (r : HealthCheckResult) : APIMonitor :=
  let h := m.results_history ++ [r]
  { m with results_history :=
      if m.max_history < h.length then h.drop (h.length - m.max_history) else h }

/-- The `HealthCheckResult` built at lines 73–81 after a response was received
and classified. -/
def responseResult (ep : EndpointConfig) (env : Env) (c : ℤ) (t : ℚ) : HealthCheckResult :=
  { endpoint_name := ep.name, url := ep.url, status := (classify ep c t).1,
    status_code := some c, response_time := t, timestamp := env.now,
    error_message := (classify ep c t).2 }

/-- The terminal `HealthCheckResult` built at lines 108–116 when the retry loop
exhausted with `msg` as the last handler's error message. -/
def errorResult (ep : EndpointConfig) (env : Env) (msg : String) : HealthCheckResult :=
  { endpoint_name := ep.name, url := ep.url, status := "error", status_code := none,
    response_time := env.final_elapsed_ms, timestamp := env.now,
    error_message := some msg }

/-- What an invocation of `check_endpoint_sync` did besides updating the
monitor: the value returned (or the exception that escaped), the number of
HTTP requests issued, and the number of sleeps performed. -/
structure CheckOutput where
  result : Except String HealthCheckResult
  attempts : Nat
  sleeps : Nat
deriving Repr

/-- `APIMonitor.check_endpoint_sync` (lines 41–119).  On a received response the
function classifies it and returns inside the loop (lines 62–84); when the loop
exhausts, it builds the terminal `error` result from the last handler's message
(lines 107–119).  When `retry_count = 0` the loop body never runs and line 115
reads the unbound local `error_message`, so an `UnboundLocalError` escapes. -/
def APIMonitor.check_endpoint_sync (m : APIMonitor) (ep : EndpointConfig) (env : Env) :
    CheckOutput × APIMonitor :=
  match runAttempts ep env 0 ep.retry_count with
  | (.responded c t, attempts, sleeps) =>
    ({ result := .ok (responseResult ep env c t), attempts := attempts, sleeps := sleeps },
     m.add_to_history (responseResult ep env c t))
  | (.exhausted none, attempts, sleeps) =>
    ({ result := .error ("cannot access local variable 'error_message' "
        ++ "where it is not associated with a value"),
       attempts := attempts, sleeps := sleeps }, m)
  | (.exhausted (some msg), attempts, sleeps) =>
    ({ result := .ok (errorResult ep env msg), attempts := attempts, sleeps := sleeps },
     m.add_to_history (errorResult ep env msg))

/-- Modelled from the spec: no `recentResults` accessor survives in the
truncated source; the spec (§4.2) defines `recentResults(limit?)` as returning
"the most recent N (or all, capped at the buffer's max) results", newest-last
(the order in which `_add_to_history` appends), without mutating the buffer. -/
def APIMonitor.recent_results (m : APIMonitor) (limit : Option Nat) : List HealthCheckResult :=
  let n := limit.getD m.max_history
  m.results_history.drop (m.results_history.length - n)

/-! ## Facts about the attempt loop -/

theorem attemptOutcome_of_issues (ep : EndpointConfig) (env : Env) (i : Nat)
    (h : issuesRequest ep = true) : attemptOutcome ep env i = env.outcome i := by
  simp [attemptOutcome, h]

theorem attemptOutcome_of_not_issues (ep : EndpointConfig) (env : Env) (i : Nat)
    (h : issuesRequest ep = false) :
    attemptOutcome ep env i = .otherExc unboundResponseMsg := by
  simp [attemptOutcome, h]

theorem issuesRequest_of_response (ep : EndpointConfig) (env : Env) (i : Nat)
    (c : ℤ) (t : ℚ) (h : attemptOutcome ep env i = .response c t) :
    issuesRequest ep = true := by
  by_contra hb
  rw [Bool.not_eq_true] at hb
  rw [attemptOutcome_of_not_issues ep env i hb] at h
  exact AttemptOutcome.noConfusion h

theorem runAttempts_succ_of_response (ep : EndpointConfig) (env : Env) (i fuel : Nat)
    (c : ℤ) (t : ℚ) (h : attemptOutcome ep env i = .response c t) :
    runAttempts ep env i (fuel + 1) =
      (.responded c t, if issuesRequest ep then 1 else 0, 0) := by
  simp [runAttempts, h]

theorem runAttempts_succ_of_failure (ep : EndpointConfig) (env : Env) (i fuel : Nat)
    (fail : AttemptOutcome) (h : attemptOutcome ep env i = fail)
    (hf : fail.isFailure = true) :
    runAttempts ep env i (fuel + 1) =
      if fuel = 0 then
        (.exhausted (some (failMsg ep fail)), if issuesRequest ep then 1 else 0, 0)
      else
        ((runAttempts ep env (i + 1) fuel).1,
         (if issuesRequest ep then 1 else 0) + (runAttempts ep env (i + 1) fuel).2.1,
         (runAttempts ep env (i + 1) fuel).2.2 + 1) := by
  cases fail with
  | response c t => simp [AttemptOutcome.isFailure] at hf
  | timeout => simp [runAttempts, h]
  | connError => simp [runAttempts, h]
  | otherExc msg => simp [runAttempts, h]

theorem runAttempts_all_failures (ep : EndpointConfig) (env : Env) :
    ∀ fuel i, 0 < fuel →
    (∀ j, j < fuel → (attemptOutcome ep env (i + j)).isFailure = true) →
    runAttempts ep env i fuel =
      (.exhausted (some (failMsg ep (attemptOutcome ep env (i + fuel - 1)))),
       if issuesRequest ep then fuel else 0, fuel - 1) := by
  intro fuel
  induction fuel with
  | zero => omega
  | succ f ih =>
    intro i _ hfail
    have h0 : (attemptOutcome ep env i).isFailure = true := by
      have := hfail 0 (by omega)
      simpa using this
    rw [runAttempts_succ_of_failure ep env i f _ rfl h0]
    by_cases hf0 : f = 0
    · subst hf0
      simp
    · rw [if_neg hf0, ih (i + 1) (by omega)
        (fun j hj => by
          have := hfail (j + 1) (by omega)
          simpa [Nat.add_assoc, Nat.add_comm 1 j] using this)]
      have hidx : i + 1 + f - 1 = i + (f + 1) - 1 := by omega
      rw [hidx]
      refine Prod.ext rfl (Prod.ext ?_ ?_)
      · by_cases hiss : issuesRequest ep
        all_goals simp [hiss]
        all_goals omega
      · show f - 1 + 1 = f + 1 - 1
        omega

theorem runAttempts_response_after_failures (ep : EndpointConfig) (env : Env)
    (c : ℤ) (t : ℚ) :
    ∀ k i fuel, k < fuel →
    (∀ j, j < k → (attemptOutcome ep env (i + j)).isFailure = true) →
    attemptOutcome ep env (i + k) = .response c t →
    runAttempts ep env i fuel = (.responded c t, k + 1, k) := by
  intro k
  induction k with
  | zero =>
    intro i fuel hlt hfail hresp
    cases fuel with
    | zero => omega
    | succ f =>
      rw [Nat.add_zero] at hresp
      rw [runAttempts_succ_of_response ep env i f c t hresp,
        if_pos (issuesRequest_of_response ep env i c t hresp)]
  | succ k ih =>
    intro i fuel hlt hfail hresp
    cases fuel with
    | zero => omega
    | succ f =>
      have h0 : (attemptOutcome ep env i).isFailure = true := by
        have := hfail 0 (by omega)
        simpa using this
      rw [runAttempts_succ_of_failure ep env i f _ rfl h0, if_neg (by omega)]
      have hresp' : attemptOutcome ep env (i + 1 + k) = .response c t := by
        rw [show i + 1 + k = i + (k + 1) by omega]
        exact hresp
      rw [ih (i + 1) f (by omega)
        (fun j hj => by
          have := hfail (j + 1) (by omega)
          simpa [Nat.add_assoc, Nat.add_comm 1 j] using this) hresp']
      rw [if_pos (issuesRequest_of_response ep env (i + 1 + k) c t hresp')]
      refine Prod.ext rfl (Prod.ext ?_ rfl)
      show 1 + (k + 1) = k + 1 + 1
      omega

theorem runAttempts_ne_exhausted_none (ep : EndpointConfig) (env : Env) :
    ∀ fuel i, 0 < fuel → (runAttempts ep env i fuel).1 ≠ .exhausted none := by
  intro fuel
  induction fuel with
  | zero => omega
  | succ f ih =>
    intro i _
    by_cases hresp : ∃ c t, attemptOutcome ep env i = .response c t
    · obtain ⟨c, t, hc⟩ := hresp
      rw [runAttempts_succ_of_response ep env i f c t hc]
      simp
    · have hfl : (attemptOutcome ep env i).isFailure = true := by
        cases hout : attemptOutcome ep env i with
        | response c t => exact absurd ⟨c, t, hout⟩ hresp
        | timeout => rfl
        | connError => rfl
        | otherExc msg => rfl
      rw [runAttempts_succ_of_failure ep env i f _ rfl hfl]
      by_cases hf0 : f = 0
      · subst hf0
        simp
      · rw [if_neg hf0]
        exact ih (i + 1) (by omega)

theorem runAttempts_attempts_le (ep : EndpointConfig) (env : Env) :
    ∀ fuel i, (runAttempts ep env i fuel).2.1 ≤ fuel := by
  intro fuel
  induction fuel with
  | zero => simp [runAttempts]
  | succ f ih =>
    intro i
    by_cases hresp : ∃ c t, attemptOutcome ep env i = .response c t
    · obtain ⟨c, t, hc⟩ := hresp
      rw [runAttempts_succ_of_response ep env i f c t hc]
      by_cases hiss : issuesRequest ep <;> simp [hiss]
    · have hfl : (attemptOutcome ep env i).isFailure = true := by
        cases hout : attemptOutcome ep env i with
        | response c t => exact absurd ⟨c, t, hout⟩ hresp
        | timeout => rfl
        | connError => rfl
        | otherExc msg => rfl
      rw [runAttempts_succ_of_failure ep env i f _ rfl hfl]
      by_cases hf0 : f = 0
      · subst hf0
        by_cases hiss : issuesRequest ep <;> simp [hiss]
      · rw [if_neg hf0]
        have := ih (i + 1)
        by_cases hiss : issuesRequest ep <;> simp [hiss] <;> omega

/-! ## Unfolding `check_endpoint_sync` along each loop exit -/

theorem check_eq_of_responded (m : APIMonitor) (ep : EndpointConfig) (env : Env)
    (c : ℤ) (t : ℚ) (a s : Nat)
    (h : runAttempts ep env 0 ep.retry_count = (.responded c t, a, s)) :
    m.check_endpoint_sync ep env =
      ({ result := .ok (responseResult ep env c t), attempts := a, sleeps := s },
       m.add_to_history (responseResult ep env c t)) := by
  simp [APIMonitor.check_endpoint_sync, h]

theorem check_eq_of_exhausted (m : APIMonitor) (ep : EndpointConfig) (env : Env)
    (msg : String) (a s : Nat)
    (h : runAttempts ep env 0 ep.retry_count = (.exhausted (some msg), a, s)) :
    m.check_endpoint_sync ep env =
      ({ result := .ok (errorResult ep env msg), attempts := a, sleeps := s },
       m.add_to_history (errorResult ep env msg)) := by
  simp [APIMonitor.check_endpoint_sync, h]

theorem check_eq_of_exhausted_none (m : APIMonitor) (ep : EndpointConfig) (env : Env)
    (a s : Nat)
    (h : runAttempts ep env 0 ep.retry_count = (.exhausted none, a, s)) :
    m.check_endpoint_sync ep env =
      ({ result := .error ("cannot access local variable 'error_message' "
          ++ "where it is not associated with a value"),
         attempts := a, sleeps := s }, m) := by
  simp [APIMonitor.check_endpoint_sync, h]

theorem check_attempts_eq (m : APIMonitor) (ep : EndpointConfig) (env : Env) :
    (m.check_endpoint_sync ep env).1.attempts = (runAttempts ep env 0 ep.retry_count).2.1 := by
  rcases hrun : runAttempts ep env 0 ep.retry_count with ⟨ex, a, s⟩
  cases ex with
  | responded c t => rw [check_eq_of_responded m ep env c t a s hrun]
  | exhausted o =>
    cases o with
    | none => rw [check_eq_of_exhausted_none m ep env a s hrun]
    | some msg => rw [check_eq_of_exhausted m ep env msg a s hrun]

/-! ## Facts about the history buffer -/

theorem add_to_history_length_le (m : APIMonitor) (r : HealthCheckResult)
    (h : m.results_history.length ≤ m.max_history) :
    (m.add_to_history r).results_history.length ≤ m.max_history := by
  have hlen : (m.results_history ++ [r]).length = m.results_history.length + 1 := by simp
  simp only [APIMonitor.add_to_history]
  split
  · rw [List.length_drop]
    omega
  · omega

theorem add_to_history_at_capacity (m : APIMonitor) (r : HealthCheckResult)
    (h : m.results_history.length = m.max_history) (h1 : 1 ≤ m.max_history) :
    (m.add_to_history r).results_history = m.results_history.drop 1 ++ [r] := by
  have hlen : (m.results_history ++ [r]).length = m.results_history.length + 1 := by simp
  simp only [APIMonitor.add_to_history]
  rw [if_pos (by omega), show (m.results_history ++ [r]).length - m.max_history = 1 by omega]
  exact List.drop_append_of_le_length (by omega)

/-! ## Claim theorems -/

/-- C1: for every `EndpointConfig` with `retry_count ≥ 1`, an invocation of
`check_endpoint_sync` terminates (the embedding is a total function) and
returns a well-formed `HealthCheckResult` to the caller — `Except.ok`, never
`Except.error` — whose name and url are copied from the config and whose status
is one of the four health states; no timeout, connection failure, or other
exception escapes. -/
theorem check_endpoint_sync_total_and_absorbing
    (m : APIMonitor) (ep : EndpointConfig) (env : Env) (h : 1 ≤ ep.retry_count) :
    ∃ r : HealthCheckResult,
      (m.check_endpoint_sync ep env).1.result = Except.ok r ∧
      r.endpoint_name = ep.name ∧ r.url = ep.url ∧
      (r.status = "healthy" ∨ r.status = "slow" ∨
       r.status = "unhealthy" ∨ r.status = "error") := by
  rcases hrun : runAttempts ep env 0 ep.retry_count with ⟨ex, a, s⟩
  cases ex with
  | responded c t =>
    refine ⟨responseResult ep env c t, ?_, rfl, rfl, ?_⟩
    · rw [check_eq_of_responded m ep env c t a s hrun]
    · show (classify ep c t).1 = "healthy" ∨ (classify ep c t).1 = "slow" ∨
        (classify ep c t).1 = "unhealthy" ∨ (classify ep c t).1 = "error"
      unfold classify
      split
      · split
        · exact Or.inl rfl
        · exact Or.inr (Or.inl rfl)
      · exact Or.inr (Or.inr (Or.inl rfl))
  | exhausted o =>
    cases o with
    | none =>
      have hne := runAttempts_ne_exhausted_none ep env ep.retry_count 0 h
      rw [hrun] at hne
      exact absurd rfl hne
    | some msg =>
      refine ⟨errorResult ep env msg, ?_, rfl, rfl, Or.inr (Or.inr (Or.inr rfl))⟩
      rw [check_eq_of_exhausted m ep env msg a s hrun]

/-- Witness for C1 at a concrete input: the default config against a network
that always times out. -/
theorem check_endpoint_sync_total_and_absorbing_witness :
    ∃ r : HealthCheckResult,
      ((APIMonitor.init []).check_endpoint_sync { name := "svc", url := "http://x" }
        { outcome := fun _ => .timeout, final_elapsed_ms := 0, now := 0 }).1.result
          = Except.ok r ∧
      r.endpoint_name = ({ name := "svc", url := "http://x" } : EndpointConfig).name ∧
      r.url = ({ name := "svc", url := "http://x" } : EndpointConfig).url ∧
      (r.status = "healthy" ∨ r.status = "slow" ∨
       r.status = "unhealthy" ∨ r.status = "error") :=
  check_endpoint_sync_total_and_absorbing (APIMonitor.init [])
    { name := "svc", url := "http://x" }
    { outcome := fun _ => .timeout, final_elapsed_ms := 0, now := 0 } (by decide)

/-- C2: whenever an attempt of `check_endpoint_sync` receives an HTTP response
(attempt index `k`, after `k` network-level failures), the check classifies
that response and returns the corresponding result immediately: exactly `k + 1`
requests are made (so retries were consumed only by the `k` network-level
failures) and `k` sleeps occurred; in particular with `k = 0` a response —
mismatched status code included — consumes exactly one attempt. -/
theorem check_endpoint_sync_response_returns_immediately
    (m : APIMonitor) (ep : EndpointConfig) (env : Env) (k : Nat) (c : ℤ) (t : ℚ)
    (hk : k < ep.retry_count)
    (hfail : ∀ j, j < k → (attemptOutcome ep env j).isFailure = true)
    (hresp : attemptOutcome ep env k = .response c t) :
    m.check_endpoint_sync ep env =
      ({ result := .ok (responseResult ep env c t), attempts := k + 1, sleeps := k },
       m.add_to_history (responseResult ep env c t)) := by
  have hrun := runAttempts_response_after_failures ep env c t k 0 ep.retry_count hk
    (fun j hj => by simpa using hfail j hj) (by simpa using hresp)
  exact check_eq_of_responded m ep env c t (k + 1) k hrun

/-- Witness for C2 at a concrete input: one connection failure, then a 500
response on the second attempt. -/
theorem check_endpoint_sync_response_returns_immediately_witness :
    (APIMonitor.init []).check_endpoint_sync { name := "svc", url := "http://x" }
      { outcome := fun i => if i = 0 then .connError else .response 500 10,
        final_elapsed_ms := 0, now := 7 } =
      ({ result := .ok (responseResult { name := "svc", url := "http://x" }
            { outcome := fun i => if i = 0 then .connError else .response 500 10,
              final_elapsed_ms := 0, now := 7 } 500 10),
         attempts := 1 + 1, sleeps := 1 },
       (APIMonitor.init []).add_to_history
         (responseResult { name := "svc", url := "http://x" }
            { outcome := fun i => if i = 0 then .connError else .response 500 10,
              final_elapsed_ms := 0, now := 7 } 500 10)) :=
  check_endpoint_sync_response_returns_immediately (APIMonitor.init [])
    { name := "svc", url := "http://x" }
    { outcome := fun i => if i = 0 then .connError else .response 500 10,
      final_elapsed_ms := 0, now := 7 } 1 500 10 (by decide)
    (fun j hj => by
      have hj0 : j = 0 := by omega
      subst hj0
      decide)
    (by decide)

/-- C3: every invocation of a check that returns a result appends exactly that
one `HealthCheckResult` to the history — the new monitor state is exactly one
`add_to_history` step, regardless of how many retry attempts occurred
internally; the buffer never grows past `max_history`; and at capacity the
oldest entry (the head) is evicted first. -/
theorem check_endpoint_sync_appends_exactly_one
    (m : APIMonitor) (ep : EndpointConfig) (env : Env) (r : HealthCheckResult)
    (h : (m.check_endpoint_sync ep env).1.result = Except.ok r) :
    (m.check_endpoint_sync ep env).2 = m.add_to_history r ∧
    (m.results_history.length ≤ m.max_history →
      (m.check_endpoint_sync ep env).2.results_history.length ≤ m.max_history) ∧
    (m.results_history.length = m.max_history → 1 ≤ m.max_history →
      (m.check_endpoint_sync ep env).2.results_history =
        m.results_history.drop 1 ++ [r]) := by
  rcases hrun : runAttempts ep env 0 ep.retry_count with ⟨ex, a, s⟩
  cases ex with
  | responded c t =>
    rw [check_eq_of_responded m ep env c t a s hrun] at h ⊢
    have hr : responseResult ep env c t = r := by
      simpa using h
    subst hr
    exact ⟨rfl, fun hle => add_to_history_length_le m _ hle,
      fun hcap h1 => add_to_history_at_capacity m _ hcap h1⟩
  | exhausted o =>
    cases o with
    | none =>
      rw [check_eq_of_exhausted_none m ep env a s hrun] at h
      exact absurd h (by simp)
    | some msg =>
      rw [check_eq_of_exhausted m ep env msg a s hrun] at h ⊢
      have hr : errorResult ep env msg = r := by
        simpa using h
      subst hr
      exact ⟨rfl, fun hle => add_to_history_length_le m _ hle,
        fun hcap h1 => add_to_history_at_capacity m _ hcap h1⟩

/-- Witness for C3 at a concrete input: the default config against a network
that always times out appends the terminal error result. -/
theorem check_endpoint_sync_appends_exactly_one_witness :
    ((APIMonitor.init []).check_endpoint_sync { name := "svc", url := "http://x" }
        { outcome := fun _ => .timeout, final_elapsed_ms := 9, now := 1 }).2 =
      (APIMonitor.init []).add_to_history
        (errorResult { name := "svc", url := "http://x" }
          { outcome := fun _ => .timeout, final_elapsed_ms := 9, now := 1 }
          (failMsg { name := "svc", url := "http://x" } .timeout)) ∧
    ((APIMonitor.init []).results_history.length ≤ (APIMonitor.init []).max_history →
      (((APIMonitor.init []).check_endpoint_sync { name := "svc", url := "http://x" }
          { outcome := fun _ => .timeout, final_elapsed_ms := 9, now := 1 }).2.results_history.length
        ≤ (APIMonitor.init []).max_history)) ∧
    ((APIMonitor.init []).results_history.length = (APIMonitor.init []).max_history →
      1 ≤ (APIMonitor.init []).max_history →
      (((APIMonitor.init []).check_endpoint_sync { name := "svc", url := "http://x" }
          { outcome := fun _ => .timeout, final_elapsed_ms := 9, now := 1 }).2.results_history =
        (APIMonitor.init []).results_history.drop 1 ++
          [errorResult { name := "svc", url := "http://x" }
            { outcome := fun _ => .timeout, final_elapsed_ms := 9, now := 1 }
            (failMsg { name := "svc", url := "http://x" } .timeout)])) :=
  check_endpoint_sync_appends_exactly_one (APIMonitor.init [])
    { name := "svc", url := "http://x" }
    { outcome := fun _ => .timeout, final_elapsed_ms := 9, now := 1 }
    (errorResult { name := "svc", url := "http://x" }
      { outcome := fun _ => .timeout, final_elapsed_ms := 9, now := 1 }
      (failMsg { name := "svc", url := "http://x" } .timeout))
    rfl

/-- C4: a received response (here: on the first attempt) is classified as
`healthy` when the status code matches and the elapsed time is within budget,
`slow` (with an elapsed-versus-threshold message) when the code matches but the
time budget is exceeded, and `unhealthy` (with an expected-versus-actual
message) when the code mismatches — the status-code comparison takes
precedence: the mismatch case applies for every elapsed time, with no latency
note. -/
theorem check_endpoint_sync_classifies
    (m : APIMonitor) (ep : EndpointConfig) (env : Env) (c : ℤ) (t : ℚ)
    (h1 : 1 ≤ ep.retry_count)
    (hresp : attemptOutcome ep env 0 = .response c t) :
    ∃ r : HealthCheckResult,
      (m.check_endpoint_sync ep env).1.result = Except.ok r ∧
      r.status_code = some c ∧
      (c = ep.expected_status → t ≤ ep.max_response_time * 1000 →
        r.status = "healthy" ∧ r.error_message = none) ∧
      (c = ep.expected_status → ¬ t ≤ ep.max_response_time * 1000 →
        r.status = "slow" ∧ r.error_message =
          some ("Response time " ++ toString t ++ "ms exceeds threshold "
            ++ toString (ep.max_response_time * 1000) ++ "ms")) ∧
      (c ≠ ep.expected_status →
        r.status = "unhealthy" ∧ r.error_message =
          some ("Expected status " ++ toString ep.expected_status ++ ", got "
            ++ toString c)) := by
  have hrun := runAttempts_response_after_failures ep env c t 0 0 ep.retry_count
    (by omega) (fun j hj => absurd hj (by omega)) (by simpa using hresp)
  refine ⟨responseResult ep env c t, ?_, rfl, ?_, ?_, ?_⟩
  · rw [check_eq_of_responded m ep env c t 1 0 hrun]
  · intro hc ht
    subst hc
    constructor <;> simp [responseResult, classify, ht]
  · intro hc ht
    subst hc
    constructor <;> simp [responseResult, classify, ht]
  · intro hc
    constructor <;> simp [responseResult, classify, hc]

/-- Witness for C4 at a concrete input: a 503 response where 200 was expected,
with excessive latency as well, lands in the mismatch case. -/
theorem check_endpoint_sync_classifies_witness :
    ∃ r : HealthCheckResult,
      ((APIMonitor.init []).check_endpoint_sync { name := "svc", url := "http://x" }
        { outcome := fun _ => .response 503 6000, final_elapsed_ms := 0, now := 0 }).1.result
          = Except.ok r ∧
      r.status_code = some 503 ∧
      ((503 : ℤ) = ({ name := "svc", url := "http://x" } : EndpointConfig).expected_status →
        (6000 : ℚ) ≤ ({ name := "svc", url := "http://x" } : EndpointConfig).max_response_time * 1000 →
        r.status = "healthy" ∧ r.error_message = none) ∧
      ((503 : ℤ) = ({ name := "svc", url := "http://x" } : EndpointConfig).expected_status →
        ¬ (6000 : ℚ) ≤ ({ name := "svc", url := "http://x" } : EndpointConfig).max_response_time * 1000 →
        r.status = "slow" ∧ r.error_message =
          some ("Response time " ++ toString (6000 : ℚ) ++ "ms exceeds threshold "
            ++ toString (({ name := "svc", url := "http://x" } : EndpointConfig).max_response_time * 1000) ++ "ms")) ∧
      ((503 : ℤ) ≠ ({ name := "svc", url := "http://x" } : EndpointConfig).expected_status →
        r.status = "unhealthy" ∧ r.error_message =
          some ("Expected status "
            ++ toString ({ name := "svc", url := "http://x" } : EndpointConfig).expected_status
            ++ ", got " ++ toString (503 : ℤ))) :=
  check_endpoint_sync_classifies (APIMonitor.init []) { name := "svc", url := "http://x" }
    { outcome := fun _ => .response 503 6000, final_elapsed_ms := 0, now := 0 }
    503 6000 (by decide) (by decide)

/-- C5: when the configured method issues requests and every attempt fails at
the transport level, `check_endpoint_sync` makes exactly `retry_count` attempts
and sleeps exactly `retry_count - 1` times, and the final result has status
`"error"`, no status code, and the error message of the last failing attempt;
moreover, for every environment the number of transport attempts never exceeds
`retry_count` (with `retry_count = 1` the statement specialises to one attempt
and zero sleeps). -/
theorem check_endpoint_sync_exhausts_retries
    (m : APIMonitor) (ep : EndpointConfig) (env : Env)
    (hreq : issuesRequest ep = true) (h1 : 1 ≤ ep.retry_count)
    (hfail : ∀ j, j < ep.retry_count → (env.outcome j).isFailure = true) :
    m.check_endpoint_sync ep env =
      ({ result := .ok (errorResult ep env (failMsg ep (env.outcome (ep.retry_count - 1)))),
         attempts := ep.retry_count, sleeps := ep.retry_count - 1 },
       m.add_to_history
         (errorResult ep env (failMsg ep (env.outcome (ep.retry_count - 1))))) ∧
    ∀ env' : Env, (m.check_endpoint_sync ep env').1.attempts ≤ ep.retry_count := by
  constructor
  · have hrun := runAttempts_all_failures ep env ep.retry_count 0 h1
      (fun j hj => by
        rw [attemptOutcome_of_issues ep env _ hreq]
        simpa using hfail j hj)
    rw [attemptOutcome_of_issues ep env _ hreq, if_pos hreq, Nat.zero_add] at hrun
    exact check_eq_of_exhausted m ep env _ ep.retry_count (ep.retry_count - 1) hrun
  · intro env'
    rw [check_attempts_eq m ep env']
    exact runAttempts_attempts_le ep env' ep.retry_count 0

/-- Witness for C5 at a concrete input: the default config (`retry_count = 3`)
against a network that always times out makes 3 attempts and 2 sleeps. -/
theorem check_endpoint_sync_exhausts_retries_witness :
    (APIMonitor.init []).check_endpoint_sync { name := "svc", url := "http://x" }
      { outcome := fun _ => .timeout, final_elapsed_ms := 33, now := 2 } =
      ({ result := .ok (errorResult { name := "svc", url := "http://x" }
            { outcome := fun _ => .timeout, final_elapsed_ms := 33, now := 2 }
            (failMsg { name := "svc", url := "http://x" }
              (({ outcome := fun _ => .timeout, final_elapsed_ms := 33, now := 2 } : Env).outcome
                (({ name := "svc", url := "http://x" } : EndpointConfig).retry_count - 1)))),
         attempts := ({ name := "svc", url := "http://x" } : EndpointConfig).retry_count,
         sleeps := ({ name := "svc", url := "http://x" } : EndpointConfig).retry_count - 1 },
       (APIMonitor.init []).add_to_history
         (errorResult { name := "svc", url := "http://x" }
            { outcome := fun _ => .timeout, final_elapsed_ms := 33, now := 2 }
            (failMsg { name := "svc", url := "http://x" }
              (({ outcome := fun _ => .timeout, final_elapsed_ms := 33, now := 2 } : Env).outcome
                (({ name := "svc", url := "http://x" } : EndpointConfig).retry_count - 1))))) ∧
    ∀ env' : Env,
      ((APIMonitor.init []).check_endpoint_sync { name := "svc", url := "http://x" } env').1.attempts
        ≤ ({ name := "svc", url := "http://x" } : EndpointConfig).retry_count :=
  check_endpoint_sync_exhausts_retries (APIMonitor.init [])
    { name := "svc", url := "http://x" }
    { outcome := fun _ => .timeout, final_elapsed_ms := 33, now := 2 }
    (by decide) (by decide) (fun j hj => rfl)

/-- C6: `recent_results` returns a suffix of the history buffer — the most
recent results, in the buffer's own newest-last order — of length `limit` (or
the buffer's cap when no limit is given), truncated to what is available; being
a pure function of the monitor, it mutates nothing. -/
theorem recent_results_is_recent_suffix (m : APIMonitor) (limit : Option Nat) :
    m.recent_results limit <:+ m.results_history ∧
    (m.recent_results limit).length =
      min (limit.getD m.max_history) m.results_history.length := by
  constructor
  · exact List.drop_suffix _ _
  · simp only [APIMonitor.recent_results, List.length_drop]
    omega

/-- C7: every `HealthCheckResult` a check returns has `error_message` absent
exactly when the status is `"healthy"` — present for `"slow"`, `"unhealthy"`
and `"error"`. -/
theorem check_endpoint_sync_error_message_iff_not_healthy
    (m : APIMonitor) (ep : EndpointConfig) (env : Env) (r : HealthCheckResult)
    (h : (m.check_endpoint_sync ep env).1.result = Except.ok r) :
    r.error_message = none ↔ r.status = "healthy" := by
  rcases hrun : runAttempts ep env 0 ep.retry_count with ⟨ex, a, s⟩
  cases ex with
  | responded c t =>
    rw [check_eq_of_responded m ep env c t a s hrun] at h
    have hr : responseResult ep env c t = r := by
      simpa using h
    subst hr
    show (classify ep c t).2 = none ↔ (classify ep c t).1 = "healthy"
    unfold classify
    split
    · split
      · simp
      · have hs : ("slow" : String) ≠ "healthy" := by decide
        simp [hs]
    · have hu : ("unhealthy" : String) ≠ "healthy" := by decide
      simp [hu]
  | exhausted o =>
    cases o with
    | none =>
      rw [check_eq_of_exhausted_none m ep env a s hrun] at h
      exact absurd h (by simp)
    | some msg =>
      rw [check_eq_of_exhausted m ep env msg a s hrun] at h
      have hr : errorResult ep env msg = r := by
        simpa using h
      subst hr
      have he : ("error" : String) ≠ "healthy" := by decide
      show some msg = none ↔ ("error" : String) = "healthy"
      simp [he]

/-- Witness for C7 at a concrete input: a healthy 200 response whose result has
no error message. -/
theorem check_endpoint_sync_error_message_iff_not_healthy_witness :
    (responseResult { name := "svc", url := "http://x" }
        { outcome := fun _ => .response 200 120, final_elapsed_ms := 0, now := 0 }
        200 120).error_message = none ↔
      (responseResult { name := "svc", url := "http://x" }
        { outcome := fun _ => .response 200 120, final_elapsed_ms := 0, now := 0 }
        200 120).status = "healthy" :=
  check_endpoint_sync_error_message_iff_not_healthy (APIMonitor.init [])
    { name := "svc", url := "http://x" }
    { outcome := fun _ => .response 200 120, final_elapsed_ms := 0, now := 0 }
    (responseResult { name := "svc", url := "http://x" }
      { outcome := fun _ => .response 200 120, final_elapsed_ms := 0, now := 0 }
      200 120)
    rfl

/-- C8: with a method whose uppercasing is neither `"GET"` nor `"POST"`, each
loop iteration raises the unbound-`response` exception, caught by the generic
handler: the check sleeps and retries through all `retry_count` iterations
without issuing a single HTTP request, and ends on the terminal error path with
status `"error"`, no status code, and the exception's text as the message —
never `healthy`, `slow` or `unhealthy`. -/
theorem check_endpoint_sync_unknown_method_errors
    (m : APIMonitor) (ep : EndpointConfig) (env : Env)
    (hget : pyUpper ep.method ≠ "GET") (hpost : pyUpper ep.method ≠ "POST")
    (h1 : 1 ≤ ep.retry_count) :
    m.check_endpoint_sync ep env =
      ({ result := .ok (errorResult ep env unboundResponseMsg),
         attempts := 0, sleeps := ep.retry_count - 1 },
       m.add_to_history (errorResult ep env unboundResponseMsg)) := by
  have hiss : issuesRequest ep = false := by
    simp [issuesRequest, hget, hpost]
  have hrun := runAttempts_all_failures ep env ep.retry_count 0 h1
    (fun j hj => by
      rw [attemptOutcome_of_not_issues ep env _ hiss]
      rfl)
  rw [attemptOutcome_of_not_issues ep env _ hiss, if_neg (by simp [hiss])] at hrun
  exact check_eq_of_exhausted m ep env unboundResponseMsg 0 (ep.retry_count - 1) hrun

/-- Witness for C8 at a concrete input: method `"DELETE"` with the default
`retry_count = 3`. -/
theorem check_endpoint_sync_unknown_method_errors_witness :
    (APIMonitor.init []).check_endpoint_sync
      { name := "svc", url := "http://x", method := "DELETE" }
      { outcome := fun _ => .response 200 1, final_elapsed_ms := 5, now := 3 } =
      ({ result := .ok (errorResult { name := "svc", url := "http://x", method := "DELETE" }
            { outcome := fun _ => .response 200 1, final_elapsed_ms := 5, now := 3 }
            unboundResponseMsg),
         attempts := 0,
         sleeps := ({ name := "svc", url := "http://x", method := "DELETE" } : EndpointConfig).retry_count - 1 },
       (APIMonitor.init []).add_to_history
         (errorResult { name := "svc", url := "http://x", method := "DELETE" }
            { outcome := fun _ => .response 200 1, final_elapsed_ms := 5, now := 3 }
            unboundResponseMsg)) :=
  check_endpoint_sync_unknown_method_errors (APIMonitor.init [])
    { name := "svc", url := "http://x", method := "DELETE" }
    { outcome := fun _ => .response 200 1, final_elapsed_ms := 5, now := 3 }
    (by decide) (by decide) (by decide)

/-- C9: an `EndpointConfig` built from only a name and a url carries the
defaults `method = "GET"`, `headers = None`, `payload = None`,
`expected_status = 200`, `max_response_time = 5.0`, `timeout = 10.0`,
`retry_count = 3`, `retry_delay = 1.0`; and a fresh `APIMonitor` starts with an
empty history whose cap is 1000. -/
theorem endpointConfig_defaults_and_fresh_monitor (n u : String)
    (eps : List EndpointConfig) :
    ({ name := n, url := u } : EndpointConfig).method = "GET" ∧
    ({ name := n, url := u } : EndpointConfig).headers = none ∧
    ({ name := n, url := u } : EndpointConfig).payload = none ∧
    ({ name := n, url := u } : EndpointConfig).expected_status = 200 ∧
    ({ name := n, url := u } : EndpointConfig).max_response_time = 5 ∧
    ({ name := n, url := u } : EndpointConfig).timeout = 10 ∧
    ({ name := n, url := u } : EndpointConfig).retry_count = 3 ∧
    ({ name := n, url := u } : EndpointConfig).retry_delay = 1 ∧
    (APIMonitor.init eps).results_history = [] ∧
    (APIMonitor.init eps).max_history = 1000 :=
  ⟨rfl, rfl, rfl, rfl, rfl, rfl, rfl, rfl, rfl, rfl⟩

/-- The loop's behaviour depends on the config only through whether a request
is issued and through the timeout text in the timeout message: two configs
agreeing there run identically against the same environment. -/
theorem runAttempts_congr (ep ep' : EndpointConfig) (env : Env)
    (hiss : issuesRequest ep = issuesRequest ep') (ht : ep.timeout = ep'.timeout) :
    ∀ fuel i, runAttempts ep env i fuel = runAttempts ep' env i fuel := by
  have hout : ∀ i, attemptOutcome ep env i = attemptOutcome ep' env i := by
    intro i
    unfold attemptOutcome
    rw [hiss]
  have hmsg : ∀ o, failMsg ep o = failMsg ep' o := by
    intro o
    cases o <;> simp [failMsg, ht]
  intro fuel
  induction fuel with
  | zero => intro i; rfl
  | succ f ih =>
    intro i
    simp only [runAttempts]
    rw [hout i, hiss]
    cases attemptOutcome ep' env i with
    | response c t => rfl
    | timeout =>
      by_cases hf0 : f = 0
      · simp [hf0, hmsg]
      · simp [hf0, ih (i + 1)]
    | connError =>
      by_cases hf0 : f = 0
      · simp [hf0, hmsg]
      · simp [hf0, ih (i + 1)]
    | otherExc msg =>
      by_cases hf0 : f = 0
      · simp [hf0, hmsg]
      · simp [hf0, ih (i + 1)]

/-- C10: `check_endpoint_sync` is invariant under the case of the configured
HTTP method: for a fixed environment of transport outcomes, replacing the
method by any string with the same uppercasing (e.g. `"get"`, `"Get"`,
`"GET"`) produces the same output and the same monitor state. -/
theorem check_endpoint_sync_method_case_insensitive
    (m : APIMonitor) (ep : EndpointConfig) (env : Env) (method2 : String)
    (h : pyUpper method2 = pyUpper ep.method) :
    m.check_endpoint_sync { ep with method := method2 } env =
      m.check_endpoint_sync ep env := by
  have hiss : issuesRequest { ep with method := method2 } = issuesRequest ep := by
    simp only [issuesRequest]
    rw [show pyUpper ({ ep with method := method2 } : EndpointConfig).method
        = pyUpper ep.method from h]
  have hrun := runAttempts_congr { ep with method := method2 } ep env hiss rfl
    ep.retry_count 0
  unfold APIMonitor.check_endpoint_sync
  rw [show ({ ep with method := method2 } : EndpointConfig).retry_count
      = ep.retry_count from rfl, hrun]
  rfl

/-- Witness for C10 at a concrete input: method `"get"` behaves exactly like
the default `"GET"`. -/
theorem check_endpoint_sync_method_case_insensitive_witness :
    (APIMonitor.init []).check_endpoint_sync
      { ({ name := "svc", url := "http://x" } : EndpointConfig) with method := "get" }
      { outcome := fun _ => .response 200 120, final_elapsed_ms := 0, now := 0 } =
      (APIMonitor.init []).check_endpoint_sync { name := "svc", url := "http://x" }
        { outcome := fun _ => .response 200 120, final_elapsed_ms := 0, now := 0 } :=
  check_endpoint_sync_method_case_insensitive (APIMonitor.init [])
    { name := "svc", url := "http://x" }
    { outcome := fun _ => .response 200 120, final_elapsed_ms := 0, now := 0 }
    "get" (by decide)
